import Mathlib

/-!
Shallow embedding of the two scripts of the maine-fish-map repository,
`FishMap.py` and `update_data_2025.py`, together with theorems settling the
behavioural claims about them.

Modelling conventions:
* a pandas cell is `Cell`: missing (`NaN`), a string, or a number (floats in
  the data are integral or short decimals, modelled by rationals);
* Python exceptions that the scripts do not catch are modelled by
  `Except Unit`; caught exceptions are folded into the functions;
* Python string primitives (`strip`, `upper`, `lower`, `in`, `int`, `float`,
  `pd.to_datetime(...).month`) are modelled by executable functions over the
  character data, covering the ASCII text the CSVs hold; failure of a model
  parser stands for the corresponding Python exception.
-/

/-- Whitespace as Python `str.strip` removes it on the data's ASCII text. -/
def chIsSpace (c : Char) : Bool :=
  c = ' ' || c = '\t' || c = '\n' || c = '\r'

/-- Strip leading and trailing whitespace from a character list. -/
def stripChars (l : List Char) : List Char :=
  ((l.dropWhile chIsSpace).reverse.dropWhile chIsSpace).reverse

/-- Python `s.strip()`. -/
def pyStrip (s : String) : String := ⟨stripChars s.data⟩

/-- Lower-case one character (ASCII). -/
def chToLower (c : Char) : Char :=
  if 65 ≤ c.toNat ∧ c.toNat ≤ 90 then Char.ofNat (c.toNat + 32) else c

/-- Upper-case one character (ASCII). -/
def chToUpper (c : Char) : Char :=
  if 97 ≤ c.toNat ∧ c.toNat ≤ 122 then Char.ofNat (c.toNat - 32) else c

/-- Python `s.lower()`. -/
def pyLower (s : String) : String := ⟨s.data.map chToLower⟩

/-- Python `s.upper()`. -/
def pyUpper (s : String) : String := ⟨s.data.map chToUpper⟩

/-- Prefix test on character lists. -/
def isPrefixL : List Char → List Char → Bool
  | [], _ => true
  | _ :: _, [] => false
  | a :: as, b :: bs => a = b && isPrefixL as bs

/-- Containment of `needle` in a character list. -/
def containsL (needle : List Char) : List Char → Bool
  | [] => isPrefixL needle []
  | c :: t => isPrefixL needle (c :: t) || containsL needle t

/-- Python substring test `needle in hay`. -/
def strContains (hay needle : String) : Bool := containsL needle.data hay.data

/-- Split a character list at every occurrence of `sep` (like
`str.split(sep)` for a one-character separator). -/
def splitOnChar (sep : Char) : List Char → List (List Char)
  | [] => [[]]
  | c :: cs =>
    if c = sep then [] :: splitOnChar sep cs
    else
      match splitOnChar sep cs with
      | [] => [[c]]
      | h :: t => (c :: h) :: t

/-- The value of a nonempty all-digit character list. -/
def digitsToNat? (l : List Char) : Option Nat :=
  if l ≠ [] ∧ l.all Char.isDigit then
    some (l.foldl (fun a c => a * 10 + (c.toNat - 48)) 0)
  else none

/-- A pandas cell as the scripts see it: missing (`NaN`), a string, or a
numeric value. -/
inductive Cell where
  | na : Cell
  | str (s : String) : Cell
  | num (q : ℚ) : Cell
deriving Repr, DecidableEq

/-- Python `str(cell)`; `str(nan)` is `"nan"`. -/
def strOfCell : Cell → String
  | .na => "nan"
  | .str s => s
  | .num q => toString q

/-- `pd.isna` on one cell. -/
def isna : Cell → Bool
  | .na => true
  | _ => false

/-- `pd.notna` on one cell. -/
def notna (c : Cell) : Bool := !(isna c)

/-- An unsigned decimal literal (digits with an optional fractional part). -/
def parseUnsignedFloat? (l : List Char) : Option ℚ :=
  match splitOnChar '.' l with
  | [w] =>
    match digitsToNat? w with
    | some n => some ((n : ℚ))
    | none => none
  | [w, f] =>
    match digitsToNat? w, digitsToNat? f with
    | some wn, some fn => some ((wn : ℚ) + (fn : ℚ) / (10 : ℚ) ^ f.length)
    | _, _ => none
  | _ => none

/-- Python `float(s)` on the decimal literals occurring in the stocking data:
optional sign, digits, optional fractional part, surrounding whitespace
allowed. A string this parser rejects models a `ValueError`. -/
def parseFloat? (s : String) : Option ℚ :=
  match stripChars s.data with
  | '-' :: rest => (parseUnsignedFloat? rest).map (fun q => -q)
  | '+' :: rest => parseUnsignedFloat? rest
  | rest => parseUnsignedFloat? rest

/-- `float(qty_value)` as used in `filter_data` (`FishMap.py` line 74): a
numeric cell is already a float, a string cell is parsed; the `NaN` case
never reaches this call because `pd.isna` was checked first. -/
def parseFloatCell? : Cell → Option ℚ
  | .na => none
  | .str s => parseFloat? s
  | .num q => some q

/-- Python `int(s)` (`FishMap.py` line 200): optional sign, digits,
surrounding whitespace allowed; anything else is a `ValueError`. -/
def pyInt? (s : String) : Option Int :=
  match stripChars s.data with
  | '-' :: ds => (digitsToNat? ds).map (fun n => -(n : Int))
  | '+' :: ds => (digitsToNat? ds).map (fun n => (n : Int))
  | ds => (digitsToNat? ds).map (fun n => (n : Int))

/-- `pd.to_datetime(d).month`, modelled for the `M/D/YYYY` date strings the
CSV holds: the field before the first slash must be a month number 1..12.
A string this parser rejects models a `pd.to_datetime` failure. -/
def parseMonth? (s : String) : Option Nat :=
  match splitOnChar '/' (stripChars s.data) with
  | [m, _, _] =>
    match digitsToNat? m with
    | some n => if 1 ≤ n ∧ n ≤ 12 then some n else none
    | none => none
  | _ => none

/-- One row of `df_updated.csv` (columns listed in the spec) as loaded at
`FishMap.py` line 9. The grouping keys WATER, TOWN, COUNTY and the SPECIES
are strings in the data; the remaining columns may be missing. -/
structure Row where
  WATER : String
  TOWN : String
  COUNTY : String
  SPECIES : String
  QTY : Cell
  SIZE_inch : Cell
  DATE : Cell
  ABUNDANCE : Cell
  X_coord : Option ℚ
  Y_coord : Option ℚ
deriving Repr, DecidableEq

/-- `FishMap.py` lines 36-37: `has_date` for one DATE cell. -/
def hasDateOf (c : Cell) : Bool :=
  pyStrip (strOfCell c) ≠ "" && pyLower (pyStrip (strOfCell c)) ≠ "nan"

/-- `FishMap.py` lines 39-46: the season filter for one row. It applies only
when the row has a date and at least one season box is ticked; a date-parse
failure leaves `season_match` true. -/
def season_match (show_spring show_fall : Bool) (c : Cell) : Bool :=
  if hasDateOf c && (show_spring || show_fall) then
    match parseMonth? (strOfCell c) with
    | some month => (show_spring && decide (month ≤ 6)) || (show_fall && decide (7 ≤ month))
    | none => true
  else true

/-- The value held by `qty_value` at `FishMap.py` line 82: either a float, or
still the raw cell read at line 49 (Arctic Char without abundance data). -/
inductive QVal where
  | num (q : ℚ)
  | raw (c : Cell)
deriving Repr, DecidableEq

/-- Python `qty_value >= min_qty` (`FishMap.py` line 84): a float compares
numerically, `NaN >= n` is `False`, and comparing a leftover string raises
`TypeError` (modelled by `Except.error`). -/
def qvalGe (v : QVal) (min_qty : Int) : Except Unit Bool :=
  match v with
  | .num q => .ok (decide ((min_qty : ℚ) ≤ q))
  | .raw .na => .ok false
  | .raw (.num q) => .ok (decide ((min_qty : ℚ) ≤ q))
  | .raw (.str _) => .error ()

/-- The variables set by `FishMap.py` lines 48-77 for one row. -/
structure QtyRes where
  qty_value : QVal
  abundance_value : String
  qty_display : Option ℚ
  is_arctic_char : Bool
deriving Repr, DecidableEq

/-- `FishMap.py` lines 48-77: quantity and abundance handling for one row.
`hasAbundanceCol` models `'ABUNDANCE' in df_updated.columns`. `qty_display`
is `none` for the `'N/A'` display. -/
def computeQty (hasAbundanceCol : Bool) (r : Row) : QtyRes :=
  if r.SPECIES = "ARCTIC CHAR" then
    if hasAbundanceCol then
      if notna r.ABUNDANCE && pyStrip (strOfCell r.ABUNDANCE) ≠ "" &&
          pyLower (pyStrip (strOfCell r.ABUNDANCE)) ≠ "nan" then
        ⟨.num 0, pyStrip (strOfCell r.ABUNDANCE), none, true⟩
      else ⟨.raw r.QTY, "", none, false⟩
    else ⟨.raw r.QTY, "", none, false⟩
  else
    if isna r.QTY || pyStrip (strOfCell r.QTY) = "" then ⟨.num 0, "", none, false⟩
    else
      match parseFloatCell? r.QTY with
      | some q => ⟨.num q, "", if 0 < q then some q else none, false⟩
      | none => ⟨.num 0, "", none, false⟩

/-- `FishMap.py` lines 82-84: `quantity_match`, true outright for Arctic Char
with abundance data, otherwise the (possibly raising) float comparison. -/
def quantityMatchOf (hasAbundanceCol : Bool) (r : Row) (min_qty : Int) : Except Unit Bool :=
  if (computeQty hasAbundanceCol r).is_arctic_char then .ok true
  else qvalGe (computeQty hasAbundanceCol r).qty_value min_qty

/-- One entry of `filtered_rows` (`FishMap.py` lines 89-95); `qty = none`
renders as `'N/A'`. -/
structure FilteredRow where
  species : String
  qty : Option ℚ
  abundance : String
  size : String
  date : String
deriving Repr, DecidableEq

/-- `FishMap.py` line 93: the size display. -/
def sizeDisplay (c : Cell) : String :=
  if notna c && pyStrip (strOfCell c) ≠ "" then strOfCell c else "N/A"

/-- `FishMap.py` line 94: the date display. -/
def dateDisplay (c : Cell) : String :=
  if hasDateOf c then strOfCell c else "N/A (Not Stocked)"

/-- `FishMap.py` lines 34-95: one iteration of the row loop of `filter_data`,
returning the appended entry when the row passes all three row-level filters.
The quantity comparison happens before the final test, so its `TypeError`
propagates whatever the other filters say. -/
def processRow (hasAbundanceCol : Bool) (selected_species : List String)
    (show_spring show_fall : Bool) (min_qty : Int) (r : Row) :
    Except Unit (Option FilteredRow) :=
  match quantityMatchOf hasAbundanceCol r min_qty with
  | .error e => .error e
  | .ok qmatch =>
    if selected_species.contains r.SPECIES && qmatch &&
        season_match show_spring show_fall r.DATE then
      .ok (some ⟨r.SPECIES, (computeQty hasAbundanceCol r).qty_display,
        (computeQty hasAbundanceCol r).abundance_value,
        sizeDisplay r.SIZE_inch, dateDisplay r.DATE⟩)
    else .ok none

/-- `FishMap.py` lines 33-95: the row loop over one group, collecting
`filtered_rows` in order. -/
def processGroup (hasAbundanceCol : Bool) (selected_species : List String)
    (show_spring show_fall : Bool) (min_qty : Int) :
    List Row → Except Unit (List FilteredRow)
  | [] => .ok []
  | r :: rs =>
    match processRow hasAbundanceCol selected_species show_spring show_fall min_qty r with
    | .error e => .error e
    | .ok fr =>
      match processGroup hasAbundanceCol selected_species show_spring show_fall min_qty rs with
      | .error e => .error e
      | .ok rest =>
        .ok (match fr with
             | some f => f :: rest
             | none => rest)

/-- One entry of the list `filter_data` returns (`FishMap.py` lines 99-105). -/
structure GroupResult where
  water_name : String
  town_name : String
  county_name : String
  group : List Row
  filtered_rows : List FilteredRow
deriving Repr, DecidableEq

/-- `FishMap.py` lines 28-30: case-insensitive substring match of the search
term against the three group-key fields. -/
def searchMatch (search_term water_name town_name county_name : String) : Bool :=
  strContains (pyLower water_name) (pyLower search_term) ||
    strContains (pyLower town_name) (pyLower search_term) ||
    strContains (pyLower county_name) (pyLower search_term)

/-- `FishMap.py` lines 26-105: the group loop of `filter_data` over an
already-grouped list. A group is examined only when the search term matches,
and kept only when its `filtered_rows` is nonempty. -/
def filterGroups (hasAbundanceCol : Bool) (selected_species : List String)
    (show_spring show_fall : Bool) (search_term : String) (min_qty : Int) :
    List ((String × String × String) × List Row) → Except Unit (List GroupResult)
  | [] => .ok []
  | (k, g) :: kgs =>
    if searchMatch search_term k.1 k.2.1 k.2.2 then
      match processGroup hasAbundanceCol selected_species show_spring show_fall min_qty g with
      | .error e => .error e
      | .ok frs =>
        match filterGroups hasAbundanceCol selected_species show_spring show_fall
            search_term min_qty kgs with
        | .error e => .error e
        | .ok rest =>
          .ok (if frs = [] then rest else ⟨k.1, k.2.1, k.2.2, g, frs⟩ :: rest)
    else
      filterGroups hasAbundanceCol selected_species show_spring show_fall
        search_term min_qty kgs

/-- The grouping key of a row (`FishMap.py` line 23). -/
def rowKey (r : Row) : String × String × String := (r.WATER, r.TOWN, r.COUNTY)

/-- `df_updated.groupby(['WATER', 'TOWN', 'COUNTY'])`: each distinct key paired
with the rows carrying it, in row order (pandas orders the keys; no claim
depends on group order). -/
def groupBy3 (rows : List Row) : List ((String × String × String) × List Row) :=
  ((rows.map rowKey).dedup).map (fun k => (k, rows.filter (fun r => rowKey r = k)))

/-- `FishMap.py` lines 20-107: `filter_data` over an explicit dataframe. -/
def filter_data (df : List Row) (hasAbundanceCol : Bool) (selected_species : List String)
    (show_spring show_fall : Bool) (search_term : String) (min_qty : Int) :
    Except Unit (List GroupResult) :=
  filterGroups hasAbundanceCol selected_species show_spring show_fall
    search_term min_qty (groupBy3 df)

/-- `FishMap.py` lines 110-167: the observable content of `update_map` — one
marker per filtered group, whose popup lists exactly that group's
`filtered_rows` (marker coordinates and their random jitter are not
modelled). -/
def update_map_popups (df : List Row) (hasAbundanceCol : Bool)
    (selected_species : List String) (show_spring show_fall : Bool)
    (search_term : String) (min_qty : Int) : Except Unit (List (List FilteredRow)) :=
  match filter_data df hasAbundanceCol selected_species show_spring show_fall
      search_term min_qty with
  | .error e => .error e
  | .ok gs => .ok (gs.map (fun g => g.filtered_rows))

/-- `FishMap.py` lines 199-202: `int(min_qty_text)` with `ValueError`
defaulted to 0. -/
def parse_min_qty (s : String) : Int :=
  match pyInt? s with
  | some n => n
  | none => 0

/-- One row of `missing_coordinates_2025.csv` as `load_manual_coordinates`
reads it. -/
structure CoordRow where
  WATER : String
  TOWN : String
  X_coord : Option ℚ
  Y_coord : Option ℚ
deriving Repr, DecidableEq

/-- A Python dict from (WATER, TOWN) keys to coordinate pairs, represented so
that `List.lookup` finds the most recent insertion (last write wins). -/
abbrev CoordDict := List ((String × String) × (ℚ × ℚ))

/-- `update_data_2025.py` lines 83, 97, 110: the lookup key
`(str(WATER).strip().upper(), str(TOWN).strip().upper())`. -/
def coordKey (water town : String) : String × String :=
  (pyUpper (pyStrip water), pyUpper (pyStrip town))

/-- `update_data_2025.py` lines 75-87: the coordinate lookup built from the
current `df_updated.csv`, keeping only rows with both coordinates present. -/
def load_existing_coordinates (df_current : List Row) : CoordDict :=
  df_current.foldl
    (fun acc r =>
      match r.X_coord, r.Y_coord with
      | some x, some y => (coordKey r.WATER r.TOWN, (x, y)) :: acc
      | _, _ => acc)
    []

/-- `update_data_2025.py` lines 89-101: the manually-maintained coordinate
lookup from `missing_coordinates_2025.csv`. -/
def load_manual_coordinates (df_manual : List CoordRow) : CoordDict :=
  df_manual.foldl
    (fun acc r =>
      match r.X_coord, r.Y_coord with
      | some x, some y => (coordKey r.WATER r.TOWN, (x, y)) :: acc
      | _, _ => acc)
    []

/-- `update_data_2025.py` lines 103-125: `merge_coordinates`. Both coordinate
columns start as `None`; manual coordinates win over existing ones, and a key
found in neither lookup leaves both columns `None`. -/
def merge_coordinates (df : List Row) (existing_coords manual_coords : CoordDict) :
    List Row :=
  df.map (fun r =>
    match manual_coords.lookup (coordKey r.WATER r.TOWN) with
    | some xy =>
      ⟨r.WATER, r.TOWN, r.COUNTY, r.SPECIES, r.QTY, r.SIZE_inch, r.DATE, r.ABUNDANCE,
        some xy.1, some xy.2⟩
    | none =>
      match existing_coords.lookup (coordKey r.WATER r.TOWN) with
      | some xy =>
        ⟨r.WATER, r.TOWN, r.COUNTY, r.SPECIES, r.QTY, r.SIZE_inch, r.DATE, r.ABUNDANCE,
          some xy.1, some xy.2⟩
      | none =>
        ⟨r.WATER, r.TOWN, r.COUNTY, r.SPECIES, r.QTY, r.SIZE_inch, r.DATE, r.ABUNDANCE,
          none, none⟩)

/-- `update_data_2025.py` line 132: the permanent species list. -/
def permanent_species : List String := ["NORTHERN PIKE", "ARCTIC CHAR"]

/-- `update_data_2025.py` lines 127-138: the rows of the current CSV whose
SPECIES is in `permanent_species` (`df['SPECIES'].isin(...)`). -/
def get_permanent_species (df_current : List Row) : List Row :=
  df_current.filter (fun r => decide (r.SPECIES ∈ permanent_species))

/-- `update_data_2025.py` lines 140-168: `combine_data`. In this record
embedding every row already carries every column, so the column-set alignment
and reordering of lines 144-158 are identities and the combination is the
concatenation of line 161. -/
def combine_data (df_2025 : List Row) (permanent_data : List Row) : List Row :=
  df_2025 ++ permanent_data

/-- One row of `coordinate_reference.csv`: the five columns selected at
`update_data_2025.py` lines 175-177, with both coordinates present. -/
structure CoordRefRow where
  WATER : String
  TOWN : String
  COUNTY : String
  X_coord : ℚ
  Y_coord : ℚ
deriving Repr, DecidableEq

/-- The projection of one combined row into the coordinate reference: `some`
exactly when both coordinates are non-null. -/
def toRef? (r : Row) : Option CoordRefRow :=
  match r.X_coord, r.Y_coord with
  | some x, some y => some ⟨r.WATER, r.TOWN, r.COUNTY, x, y⟩
  | _, _ => none

/-- The deduplication key of `drop_duplicates(subset=['WATER','TOWN','COUNTY'])`. -/
def refKey (r : CoordRefRow) : String × String × String := (r.WATER, r.TOWN, r.COUNTY)

/-- `drop_duplicates` with its default keep-first policy: keep a row only when
its key was not seen before. -/
def dedupFirstAux (seen : List (String × String × String)) :
    List CoordRefRow → List CoordRefRow
  | [] => []
  | r :: rs =>
    if refKey r ∈ seen then dedupFirstAux seen rs
    else r :: dedupFirstAux (refKey r :: seen) rs

/-- Three-way lexicographic comparison of character lists by code point, the
order Python string comparison and hence `sort_values` uses. -/
def cmpChars : List Char → List Char → Ordering
  | [], [] => .eq
  | [], _ :: _ => .lt
  | _ :: _, [] => .gt
  | a :: as, b :: bs =>
    if a.toNat < b.toNat then .lt
    else if b.toNat < a.toNat then .gt
    else cmpChars as bs

/-- The comparison `sort_values(['COUNTY', 'TOWN', 'WATER'])` sorts by:
COUNTY, then TOWN, then WATER. -/
def cmpRef (a b : CoordRefRow) : Ordering :=
  (cmpChars a.COUNTY.data b.COUNTY.data).then
    ((cmpChars a.TOWN.data b.TOWN.data).then (cmpChars a.WATER.data b.WATER.data))

/-- The row order of the sorted coordinate reference. -/
def refLe (a b : CoordRefRow) : Prop := cmpRef a b ≠ .gt

instance : DecidableRel refLe :=
  fun a b => inferInstanceAs (Decidable (cmpRef a b ≠ .gt))

/-- `update_data_2025.py` lines 170-184: `create_coordinate_reference` — keep
the rows with both coordinates, project to five columns, drop duplicate
(WATER, TOWN, COUNTY) keys keeping the first, and sort by COUNTY, TOWN,
WATER. -/
def create_coordinate_reference (df : List Row) : List CoordRefRow :=
  List.insertionSort refLe (dedupFirstAux [] (df.filterMap toRef?))

/-- `update_data_2025.py` lines 186-234: the pure dataflow of `main` — the
dataframe written back to `df_updated.csv` (first component) and the table
written to `coordinate_reference.csv` (second component). `df_2025` is the
spreadsheet after `load_2025_data`. -/
def main_outputs (df_2025 df_current : List Row) (df_manual : List CoordRow) :
    List Row × List CoordRefRow :=
  let existing := load_existing_coordinates df_current
  let manual := load_manual_coordinates df_manual
  let withCoords := merge_coordinates df_2025 existing manual
  let combined := combine_data withCoords (get_permanent_species df_current)
  (combined, create_coordinate_reference combined)

/-- Whether an embedded computation finished without a Python exception. -/
def isOkE {α : Type} : Except Unit α → Bool
  | .ok _ => true
  | .error _ => false

/-- The numeric value carried by `qty_value`, when it holds one: the parsed
float, or the raw float the CSV held. -/
def qtyNumOf : QVal → Option ℚ
  | .num q => some q
  | .raw (.num q) => some q
  | .raw _ => none

/-- Whether the numeric value of `qty_value` is at least `min_qty`. -/
def qtyGeB (v : QVal) (min_qty : Int) : Bool :=
  match qtyNumOf v with
  | some q => decide ((min_qty : ℚ) ≤ q)
  | none => false

/-- C3: in `filter_data`, a non-Arctic-Char row whose QTY cell is missing,
blank, or unparseable gets `qty_value = 0` and the quantity comparison
returns without an exception; and an invalid minimum-quantity text input
silently becomes `min_qty = 0`. -/
theorem claim_C3 (hasAbundanceCol : Bool) (r : Row) (min_qty : Int) (s : String)
    (hsp : r.SPECIES ≠ "ARCTIC CHAR")
    (hq : isna r.QTY = true ∨ pyStrip (strOfCell r.QTY) = "" ∨
      parseFloatCell? r.QTY = none) :
    (computeQty hasAbundanceCol r).qty_value = QVal.num 0 ∧
    quantityMatchOf hasAbundanceCol r min_qty = .ok (decide ((min_qty : ℚ) ≤ 0)) ∧
    (pyInt? s = none → parse_min_qty s = 0) := by
  have hq0 : computeQty hasAbundanceCol r = ⟨.num 0, "", none, false⟩ := by
    rw [computeQty, if_neg hsp]
    by_cases h1 : isna r.QTY || pyStrip (strOfCell r.QTY) = ""
    · rw [if_pos h1]
    · rw [if_neg h1]
      rcases hp : parseFloatCell? r.QTY with _ | q
      · rfl
      · exfalso
        simp only [Bool.or_eq_true, decide_eq_true_eq] at h1
        push_neg at h1
        rcases hq with h | h | h
        · exact absurd h (by simpa using h1.1)
        · exact h1.2 h
        · rw [hp] at h; cases h
  refine ⟨by rw [hq0], ?_, ?_⟩
  · rw [quantityMatchOf, hq0]
    rfl
  · intro hs
    rw [parse_min_qty, hs]

/-- How one step of the row loop unfolds when the quantity comparison
returns a boolean. -/
theorem processRow_eq (hasAbundanceCol : Bool) (selected_species : List String)
    (show_spring show_fall : Bool) (min_qty : Int) (r : Row) (qm : Bool)
    (hqm : quantityMatchOf hasAbundanceCol r min_qty = .ok qm) :
    processRow hasAbundanceCol selected_species show_spring show_fall min_qty r =
      if selected_species.contains r.SPECIES && qm &&
          season_match show_spring show_fall r.DATE then
        .ok (some ⟨r.SPECIES, (computeQty hasAbundanceCol r).qty_display,
          (computeQty hasAbundanceCol r).abundance_value,
          sizeDisplay r.SIZE_inch, dateDisplay r.DATE⟩)
      else .ok none := by
  rw [processRow, hqm]

/-- C4: a row whose DATE string is present but unparseable is not excluded by
the season filter — `season_match` stays true — so the row is appended
whenever the species and quantity filters pass. -/
theorem claim_C4 (hasAbundanceCol : Bool) (selected_species : List String)
    (show_spring show_fall : Bool) (min_qty : Int) (r : Row)
    (hd : hasDateOf r.DATE = true)
    (hp : parseMonth? (strOfCell r.DATE) = none) :
    season_match show_spring show_fall r.DATE = true ∧
    (selected_species.contains r.SPECIES = true →
      quantityMatchOf hasAbundanceCol r min_qty = .ok true →
      processRow hasAbundanceCol selected_species show_spring show_fall min_qty r =
        .ok (some ⟨r.SPECIES, (computeQty hasAbundanceCol r).qty_display,
          (computeQty hasAbundanceCol r).abundance_value,
          sizeDisplay r.SIZE_inch, dateDisplay r.DATE⟩)) := by
  have hsm : season_match show_spring show_fall r.DATE = true := by
    rw [season_match]
    by_cases hb : show_spring || show_fall
    · rw [if_pos (by rw [hd, hb]; rfl), hp]
    · rw [if_neg (by rw [hd]; simpa using hb)]
  refine ⟨hsm, fun hsel hqm => ?_⟩
  rw [processRow_eq hasAbundanceCol selected_species show_spring show_fall min_qty r true hqm,
    if_pos (by rw [hsel, hsm]; rfl)]

/-- C6: with a season selected and a parsed date, the season filter passes a
row exactly when (spring and month ≤ 6) or (fall and month ≥ 7); with no
season selected, or no date, it never excludes a row. -/
theorem claim_C6 (show_spring show_fall : Bool) (c : Cell) :
    (∀ month, (show_spring || show_fall) = true → hasDateOf c = true →
      parseMonth? (strOfCell c) = some month →
      season_match show_spring show_fall c =
        ((show_spring && decide (month ≤ 6)) || (show_fall && decide (7 ≤ month)))) ∧
    ((show_spring || show_fall) = false →
      season_match show_spring show_fall c = true) ∧
    (hasDateOf c = false → season_match show_spring show_fall c = true) := by
  refine ⟨fun month hb hd hp => ?_, fun hb => ?_, fun hd => ?_⟩
  · rw [season_match, if_pos (by rw [hd, hb]; rfl), hp]
  · rw [season_match, if_neg (by rw [hb]; simp)]
  · rw [season_match, if_neg (by rw [hd]; simp)]

/-- C10: an Arctic Char row with a non-empty, non-NaN ABUNDANCE value always
passes the quantity filter whatever `min_qty` is: `qty_value` is forced to 0,
`quantity_match` stays true, the displayed quantity is `'N/A'`, and the
abundance string is stored separately. -/
theorem claim_C10 (r : Row) (min_qty : Int)
    (hsp : r.SPECIES = "ARCTIC CHAR")
    (hn : notna r.ABUNDANCE = true)
    (h1 : pyStrip (strOfCell r.ABUNDANCE) ≠ "")
    (h2 : pyLower (pyStrip (strOfCell r.ABUNDANCE)) ≠ "nan") :
    (computeQty true r).is_arctic_char = true ∧
    (computeQty true r).qty_value = QVal.num 0 ∧
    (computeQty true r).qty_display = none ∧
    (computeQty true r).abundance_value = pyStrip (strOfCell r.ABUNDANCE) ∧
    quantityMatchOf true r min_qty = .ok true := by
  have hcond : (notna r.ABUNDANCE && pyStrip (strOfCell r.ABUNDANCE) ≠ "" &&
      pyLower (pyStrip (strOfCell r.ABUNDANCE)) ≠ "nan") = true := by
    rw [hn]
    simp only [Bool.true_and, Bool.and_eq_true, decide_eq_true_eq]
    exact ⟨h1, h2⟩
  have hq : computeQty true r =
      ⟨.num 0, pyStrip (strOfCell r.ABUNDANCE), none, true⟩ := by
    rw [computeQty, if_pos hsp, if_pos rfl, if_pos hcond]
  refine ⟨by rw [hq], by rw [hq], by rw [hq], by rw [hq], ?_⟩
  rw [quantityMatchOf, hq]
  rfl

/-- C7: a row is appended to `filtered_rows` only if its SPECIES is selected
and — unless it is Arctic Char with abundance data — its numeric quantity is
at least `min_qty`; a row failing the species test or the quantity test is
never appended. -/
theorem claim_C7 (hasAbundanceCol : Bool) (selected_species : List String)
    (show_spring show_fall : Bool) (min_qty : Int) (r : Row) :
    (∀ fr, processRow hasAbundanceCol selected_species show_spring show_fall min_qty r =
        .ok (some fr) →
      selected_species.contains r.SPECIES = true ∧
      ((computeQty hasAbundanceCol r).is_arctic_char = true ∨
        qtyGeB (computeQty hasAbundanceCol r).qty_value min_qty = true)) ∧
    (selected_species.contains r.SPECIES = false →
      ∀ fr, processRow hasAbundanceCol selected_species show_spring show_fall min_qty r ≠
        .ok (some fr)) ∧
    (quantityMatchOf hasAbundanceCol r min_qty = .ok false →
      ∀ fr, processRow hasAbundanceCol selected_species show_spring show_fall min_qty r ≠
        .ok (some fr)) := by
  refine ⟨fun fr hfr => ?_, fun hsel fr hfr => ?_, fun hqm fr hfr => ?_⟩
  · rcases hqm : quantityMatchOf hasAbundanceCol r min_qty with e | qm
    · rw [processRow, hqm] at hfr
      cases hfr
    · rw [processRow_eq hasAbundanceCol selected_species show_spring show_fall min_qty r
        qm hqm] at hfr
      by_cases hc : selected_species.contains r.SPECIES && qm &&
          season_match show_spring show_fall r.DATE
      · have hc2 := hc
        simp only [Bool.and_eq_true] at hc2
        refine ⟨hc2.1.1, ?_⟩
        have hqmtrue : qm = true := hc2.1.2
        rw [quantityMatchOf] at hqm
        by_cases hac : (computeQty hasAbundanceCol r).is_arctic_char
        · exact Or.inl hac
        · right
          rw [if_neg hac] at hqm
          rcases hv : (computeQty hasAbundanceCol r).qty_value with q | c
          · rw [hv, qvalGe] at hqm
            injection hqm with h
            exact h.trans hqmtrue
          · rcases c with _ | s | q
            · rw [hv] at hqm
              injection hqm with h
              rw [hqmtrue] at h
              cases h
            · rw [hv] at hqm
              cases hqm
            · rw [hv] at hqm
              injection hqm with h
              exact h.trans hqmtrue
      · rw [if_neg hc] at hfr
        cases hfr
  · rcases hqm : quantityMatchOf hasAbundanceCol r min_qty with e | qm
    · rw [processRow, hqm] at hfr
      cases hfr
    · rw [processRow_eq hasAbundanceCol selected_species show_spring show_fall min_qty r
        qm hqm] at hfr
      rw [if_neg (by rw [hsel]; simp)] at hfr
      cases hfr
  · rw [processRow_eq hasAbundanceCol selected_species show_spring show_fall min_qty r
      false hqm] at hfr
    rw [if_neg (by simp)] at hfr
    cases hfr

/-- C1: every row of the current `df_updated.csv` whose SPECIES is NORTHERN
PIKE or ARCTIC CHAR is carried into the combined dataset that `main` writes
back, whatever the new year's data holds; and a row appears in that dataset
only through the processed new-year data or through the permanent-species
subset of the current CSV. -/
theorem claim_C1 (df_2025 df_current : List Row) (df_manual : List CoordRow) (r : Row) :
    (r ∈ df_current → r.SPECIES ∈ permanent_species →
      r ∈ (main_outputs df_2025 df_current df_manual).1) ∧
    (r ∈ (main_outputs df_2025 df_current df_manual).1 →
      r ∈ merge_coordinates df_2025 (load_existing_coordinates df_current)
          (load_manual_coordinates df_manual) ∨
        (r ∈ df_current ∧ r.SPECIES ∈ permanent_species)) := by
  constructor
  · intro hmem hsp
    simp only [main_outputs, combine_data, get_permanent_species, List.mem_append,
      List.mem_filter, decide_eq_true_eq]
    exact Or.inr ⟨hmem, hsp⟩
  · intro h
    simp only [main_outputs, combine_data, get_permanent_species, List.mem_append,
      List.mem_filter, decide_eq_true_eq] at h
    exact h

/-- C2: `merge_coordinates` keeps the row count and every field but the
coordinates; each row's coordinates come from the manual lookup when its
(WATER, TOWN) key is there, else from the existing-CSV lookup, else stay
`None`. -/
theorem claim_C2 (df : List Row) (existing_coords manual_coords : CoordDict)
    (i : Nat) (hi : i < df.length) :
    (merge_coordinates df existing_coords manual_coords).length = df.length ∧
    ∀ r', (merge_coordinates df existing_coords manual_coords)[i]? = some r' →
      (∀ x y, manual_coords.lookup (coordKey (df[i]).WATER (df[i]).TOWN) = some (x, y) →
        r'.X_coord = some x ∧ r'.Y_coord = some y) ∧
      (manual_coords.lookup (coordKey (df[i]).WATER (df[i]).TOWN) = none →
        ∀ x y, existing_coords.lookup (coordKey (df[i]).WATER (df[i]).TOWN) = some (x, y) →
          r'.X_coord = some x ∧ r'.Y_coord = some y) ∧
      (manual_coords.lookup (coordKey (df[i]).WATER (df[i]).TOWN) = none →
        existing_coords.lookup (coordKey (df[i]).WATER (df[i]).TOWN) = none →
        r'.X_coord = none ∧ r'.Y_coord = none) ∧
      r'.WATER = (df[i]).WATER ∧ r'.TOWN = (df[i]).TOWN ∧ r'.COUNTY = (df[i]).COUNTY ∧
      r'.SPECIES = (df[i]).SPECIES ∧ r'.QTY = (df[i]).QTY ∧
      r'.SIZE_inch = (df[i]).SIZE_inch ∧ r'.DATE = (df[i]).DATE ∧
      r'.ABUNDANCE = (df[i]).ABUNDANCE := by
  constructor
  · rw [merge_coordinates, List.length_map]
  · intro r' hr'
    rw [merge_coordinates, List.getElem?_map, List.getElem?_eq_getElem hi] at hr'
    simp only [Option.map_some'] at hr'
    injection hr' with hr'
    rcases hman : manual_coords.lookup (coordKey (df[i]).WATER (df[i]).TOWN) with _ | xy
    · rcases hex : existing_coords.lookup (coordKey (df[i]).WATER (df[i]).TOWN) with _ | xy
      · rw [hman, hex] at hr'
        rw [← hr']
        simp [hman, hex]
      · obtain ⟨x0, y0⟩ := xy
        rw [hman, hex] at hr'
        rw [← hr']
        simp [hman, hex]
    · obtain ⟨x0, y0⟩ := xy
      rw [hman] at hr'
      rw [← hr']
      simp [hman]

/-- Every group that the group loop of `filter_data` emits passed the search
match and carries a nonempty `filtered_rows` list. -/
theorem filterGroups_sound (hasAbundanceCol : Bool) (selected_species : List String)
    (show_spring show_fall : Bool) (search_term : String) (min_qty : Int) :
    ∀ (kgs : List ((String × String × String) × List Row)) (gs : List GroupResult),
      filterGroups hasAbundanceCol selected_species show_spring show_fall
        search_term min_qty kgs = .ok gs →
      ∀ g ∈ gs,
        searchMatch search_term g.water_name g.town_name g.county_name = true ∧
        g.filtered_rows ≠ [] := by
  intro kgs
  induction kgs with
  | nil =>
    intro gs h g hg
    rw [filterGroups] at h
    injection h with h
    subst h
    cases hg
  | cons kg kgs ih =>
    intro gs h g hg
    obtain ⟨k, grp⟩ := kg
    rw [filterGroups] at h
    by_cases hsm : searchMatch search_term k.1 k.2.1 k.2.2
    · rw [if_pos hsm] at h
      rcases hpg : processGroup hasAbundanceCol selected_species show_spring show_fall
          min_qty grp with e | frs
      · rw [hpg] at h; cases h
      · rw [hpg] at h
        rcases hrest : filterGroups hasAbundanceCol selected_species show_spring show_fall
            search_term min_qty kgs with e | rest
        · rw [hrest] at h; cases h
        · rw [hrest] at h
          injection h with h
          rw [← h] at hg
          by_cases hfrs : frs = []
          · rw [if_pos hfrs] at hg
            exact ih rest hrest g hg
          · rw [if_neg hfrs] at hg
            rcases List.mem_cons.mp hg with hg2 | hg2
            · subst hg2
              exact ⟨hsm, hfrs⟩
            · exact ih rest hrest g hg2
    · rw [if_neg hsm] at h
      exact ih gs h g hg

/-- C5: a (WATER, TOWN, COUNTY) group appears in the result of `filter_data`
only if the lowercased search term is a substring of the lowercased water
name, town name, or county name. -/
theorem claim_C5 (df : List Row) (hasAbundanceCol : Bool)
    (selected_species : List String) (show_spring show_fall : Bool)
    (search_term : String) (min_qty : Int) (gs : List GroupResult) (g : GroupResult)
    (hok : filter_data df hasAbundanceCol selected_species show_spring show_fall
      search_term min_qty = .ok gs)
    (hg : g ∈ gs) :
    strContains (pyLower g.water_name) (pyLower search_term) = true ∨
    strContains (pyLower g.town_name) (pyLower search_term) = true ∨
    strContains (pyLower g.county_name) (pyLower search_term) = true := by
  have hs := (filterGroups_sound hasAbundanceCol selected_species show_spring show_fall
    search_term min_qty (groupBy3 df) gs hok g hg).1
  rw [searchMatch] at hs
  simpa only [Bool.or_eq_true, or_assoc] using hs

/-- C9: every group returned by `filter_data` has a nonempty `filtered_rows`
list, so every marker popup `update_map` builds lists at least one stocking
record. -/
theorem claim_C9 (df : List Row) (hasAbundanceCol : Bool)
    (selected_species : List String) (show_spring show_fall : Bool)
    (search_term : String) (min_qty : Int) :
    (∀ gs, filter_data df hasAbundanceCol selected_species show_spring show_fall
        search_term min_qty = .ok gs →
      ∀ g ∈ gs, g.filtered_rows ≠ []) ∧
    (∀ ps, update_map_popups df hasAbundanceCol selected_species show_spring show_fall
        search_term min_qty = .ok ps →
      ∀ p ∈ ps, p ≠ []) := by
  constructor
  · intro gs hok g hg
    exact (filterGroups_sound hasAbundanceCol selected_species show_spring show_fall
      search_term min_qty (groupBy3 df) gs hok g hg).2
  · intro ps hok p hp
    rw [update_map_popups] at hok
    rcases hfd : filter_data df hasAbundanceCol selected_species show_spring show_fall
        search_term min_qty with e | gs
    · rw [hfd] at hok; cases hok
    · rw [hfd] at hok
      injection hok with hok
      subst hok
      rcases List.mem_map.mp hp with ⟨g, hg, hgp⟩
      subst hgp
      exact (filterGroups_sound hasAbundanceCol selected_species show_spring show_fall
        search_term min_qty (groupBy3 df) gs hfd g hg).2

/-- `Ordering.then` after a strict first component. -/
theorem ordThenLt (o : Ordering) : Ordering.lt.then o = .lt := rfl

/-- `Ordering.then` after an equal first component. -/
theorem ordThenEq (o : Ordering) : Ordering.eq.then o = o := rfl

/-- `Ordering.then` after a reversed first component. -/
theorem ordThenGt (o : Ordering) : Ordering.gt.then o = .gt := rfl

/-- `Ordering.then` commutes with `Ordering.swap`. -/
theorem ordThenSwap (o1 o2 : Ordering) : (o1.then o2).swap = o1.swap.then o2.swap := by
  cases o1 <;> rfl

/-- Swapping the arguments of `cmpChars` swaps the result. -/
theorem cmpChars_swap : ∀ as bs : List Char, cmpChars bs as = (cmpChars as bs).swap := by
  intro as
  induction as with
  | nil =>
    intro bs
    cases bs <;> rfl
  | cons a as ih =>
    intro bs
    cases bs with
    | nil => rfl
    | cons b bs =>
      rw [cmpChars, cmpChars]
      by_cases h1 : a.toNat < b.toNat
      · have h2 : ¬ b.toNat < a.toNat := by omega
        simp [h1, h2, Ordering.swap]
      · by_cases h2 : b.toNat < a.toNat
        · simp [h1, h2, Ordering.swap]
        · simp [h1, h2, ih bs]

/-- An `eq` first argument of `cmpChars` can be replaced. -/
theorem cmpChars_eq_left : ∀ as bs cs : List Char,
    cmpChars as bs = .eq → cmpChars as cs = cmpChars bs cs := by
  intro as
  induction as with
  | nil =>
    intro bs cs h
    cases bs with
    | nil => rfl
    | cons b bs => rw [cmpChars] at h; cases h
  | cons a as ih =>
    intro bs cs h
    cases bs with
    | nil => rw [cmpChars] at h; cases h
    | cons b bs =>
      rw [cmpChars] at h
      by_cases h1 : a.toNat < b.toNat
      · rw [if_pos h1] at h; cases h
      · rw [if_neg h1] at h
        by_cases h2 : b.toNat < a.toNat
        · rw [if_pos h2] at h; cases h
        · rw [if_neg h2] at h
          have hab : a.toNat = b.toNat := by omega
          cases cs with
          | nil => rfl
          | cons c cs =>
            rw [cmpChars, cmpChars, hab, ih bs cs h]

/-- An `eq` second argument of `cmpChars` can be replaced. -/
theorem cmpChars_eq_right : ∀ as bs cs : List Char,
    cmpChars bs cs = .eq → cmpChars as cs = cmpChars as bs := by
  intro as bs cs h
  have hcb : cmpChars cs bs = .eq := by
    rw [cmpChars_swap bs cs, h]
    rfl
  rw [cmpChars_swap bs as, cmpChars_swap cs as, cmpChars_eq_left cs bs as hcb]

/-- `cmpChars` is transitive on strict comparisons. -/
theorem cmpChars_lt_trans : ∀ as bs cs : List Char,
    cmpChars as bs = .lt → cmpChars bs cs = .lt → cmpChars as cs = .lt := by
  intro as
  induction as with
  | nil =>
    intro bs cs h1 h2
    cases cs with
    | nil =>
      cases bs with
      | nil => cases h2
      | cons b bs => rw [cmpChars] at h2; cases h2
    | cons c cs => rfl
  | cons a as ih =>
    intro bs cs h1 h2
    cases bs with
    | nil => rw [cmpChars] at h1; cases h1
    | cons b bs =>
      cases cs with
      | nil => rw [cmpChars] at h2; cases h2
      | cons c cs =>
        rw [cmpChars] at h1 h2 ⊢
        by_cases hab1 : a.toNat < b.toNat
        · by_cases hbc1 : b.toNat < c.toNat
          · rw [if_pos (by omega)]
          · rw [if_neg hbc1] at h2
            by_cases hbc2 : c.toNat < b.toNat
            · rw [if_pos hbc2] at h2; cases h2
            · rw [if_pos (by omega)]
        · rw [if_neg hab1] at h1
          by_cases hab2 : b.toNat < a.toNat
          · rw [if_pos hab2] at h1; cases h1
          · rw [if_neg hab2] at h1
            by_cases hbc1 : b.toNat < c.toNat
            · rw [if_pos (by omega)]
            · rw [if_neg hbc1] at h2
              by_cases hbc2 : c.toNat < b.toNat
              · rw [if_pos hbc2] at h2; cases h2
              · rw [if_neg hbc2] at h2
                rw [if_neg (by omega), if_neg (by omega)]
                exact ih bs cs h1 h2

/-- `cmpRef` swaps with its arguments. -/
theorem cmpRef_swap (a b : CoordRefRow) : cmpRef b a = (cmpRef a b).swap := by
  rw [cmpRef, cmpRef, cmpChars_swap a.COUNTY.data b.COUNTY.data,
    cmpChars_swap a.TOWN.data b.TOWN.data, cmpChars_swap a.WATER.data b.WATER.data,
    ordThenSwap, ordThenSwap]

instance : IsTotal CoordRefRow refLe := by
  constructor
  intro a b
  rcases h : cmpRef a b with _ | _ | _
  · left
    rw [refLe, h]
    simp
  · left
    rw [refLe, h]
    simp
  · right
    rw [refLe, cmpRef_swap a b, h]
    simp [Ordering.swap]

instance : IsTrans CoordRefRow refLe := by
  constructor
  have inner : ∀ a3 b3 c3 : List Char,
      cmpChars a3 b3 ≠ .gt → cmpChars b3 c3 ≠ .gt → cmpChars a3 c3 ≠ .gt := by
    intro a3 b3 c3 h1 h2
    rcases k1 : cmpChars a3 b3 with _ | _ | _
    · rcases k2 : cmpChars b3 c3 with _ | _ | _
      · rw [cmpChars_lt_trans a3 b3 c3 k1 k2]; simp
      · rw [cmpChars_eq_right a3 b3 c3 k2, k1]; simp
      · exact absurd k2 h2
    · rw [cmpChars_eq_left a3 b3 c3 k1]; exact h2
    · exact absurd k1 h1
  intro a b c hab hbc
  rw [refLe] at hab hbc ⊢
  rw [cmpRef] at hab hbc ⊢
  rcases k1 : cmpChars a.COUNTY.data b.COUNTY.data with _ | _ | _
  · rcases k2 : cmpChars b.COUNTY.data c.COUNTY.data with _ | _ | _
    · rw [cmpChars_lt_trans _ _ _ k1 k2, ordThenLt]; simp
    · rw [cmpChars_eq_right _ _ _ k2, k1, ordThenLt]; simp
    · rw [k2, ordThenGt] at hbc; exact absurd rfl hbc
  · rw [k1, ordThenEq] at hab
    rw [cmpChars_eq_left _ _ _ k1]
    rcases k2 : cmpChars b.COUNTY.data c.COUNTY.data with _ | _ | _
    · rw [ordThenLt]; simp
    · rw [k2, ordThenEq] at hbc
      rw [ordThenEq]
      rcases m1 : cmpChars a.TOWN.data b.TOWN.data with _ | _ | _
      · rcases m2 : cmpChars b.TOWN.data c.TOWN.data with _ | _ | _
        · rw [cmpChars_lt_trans _ _ _ m1 m2, ordThenLt]; simp
        · rw [cmpChars_eq_right _ _ _ m2, m1, ordThenLt]; simp
        · rw [m2, ordThenGt] at hbc; exact absurd rfl hbc
      · rw [m1, ordThenEq] at hab
        rw [cmpChars_eq_left _ _ _ m1]
        rcases m2 : cmpChars b.TOWN.data c.TOWN.data with _ | _ | _
        · rw [ordThenLt]; simp
        · rw [m2, ordThenEq] at hbc
          rw [ordThenEq]
          exact inner _ _ _ hab hbc
        · rw [m2, ordThenGt] at hbc; exact absurd rfl hbc
      · rw [m1, ordThenGt] at hab; exact absurd rfl hab
    · rw [k2, ordThenGt] at hbc; exact absurd rfl hbc
  · rw [k1, ordThenGt] at hab; exact absurd rfl hab

/-- Rows surviving `dedupFirstAux` come from the input list. -/
theorem dedupFirstAux_subset :
    ∀ (seen : List (String × String × String)) (l : List CoordRefRow) (x : CoordRefRow),
      x ∈ dedupFirstAux seen l → x ∈ l := by
  intro seen l
  induction l generalizing seen with
  | nil =>
    intro x hx
    rw [dedupFirstAux] at hx
    cases hx
  | cons r rs ih =>
    intro x hx
    rw [dedupFirstAux] at hx
    by_cases hs : refKey r ∈ seen
    · rw [if_pos hs] at hx
      exact List.mem_cons_of_mem r (ih seen x hx)
    · rw [if_neg hs] at hx
      rcases List.mem_cons.mp hx with h | h
      · rw [h]
        exact List.mem_cons_self r rs
      · exact List.mem_cons_of_mem r (ih _ x h)

/-- Every input row's key is either already seen or represented in the
output of `dedupFirstAux`. -/
theorem dedupFirstAux_covers :
    ∀ (seen : List (String × String × String)) (l : List CoordRefRow) (x : CoordRefRow),
      x ∈ l → refKey x ∈ seen ∨ refKey x ∈ (dedupFirstAux seen l).map refKey := by
  intro seen l
  induction l generalizing seen with
  | nil =>
    intro x hx
    cases hx
  | cons r rs ih =>
    intro x hx
    rcases List.mem_cons.mp hx with h | h
    · by_cases hs : refKey r ∈ seen
      · left
        rw [h]
        exact hs
      · right
        rw [dedupFirstAux, if_neg hs, List.map_cons, h]
        exact List.mem_cons_self _ _
    · by_cases hs : refKey r ∈ seen
      · rw [dedupFirstAux, if_pos hs]
        exact ih seen x h
      · rw [dedupFirstAux, if_neg hs, List.map_cons]
        rcases ih (refKey r :: seen) x h with hseen | hmap
        · rcases List.mem_cons.mp hseen with he | he
          · right
            exact List.mem_cons.mpr (Or.inl he)
          · left
            exact he
        · right
          exact List.mem_cons.mpr (Or.inr hmap)

/-- The keys of `dedupFirstAux` avoid `seen` and are distinct. -/
theorem dedupFirstAux_keys_nodup :
    ∀ (seen : List (String × String × String)) (l : List CoordRefRow),
      (∀ k ∈ (dedupFirstAux seen l).map refKey, k ∉ seen) ∧
      ((dedupFirstAux seen l).map refKey).Nodup := by
  intro seen l
  induction l generalizing seen with
  | nil =>
    rw [dedupFirstAux]
    simp
  | cons r rs ih =>
    by_cases hs : refKey r ∈ seen
    · rw [dedupFirstAux, if_pos hs]
      exact ih seen
    · rw [dedupFirstAux, if_neg hs]
      obtain ⟨h1, h2⟩ := ih (refKey r :: seen)
      constructor
      · intro k hk
        rw [List.map_cons] at hk
        rcases List.mem_cons.mp hk with he | he
        · rw [he]
          exact hs
        · intro hmem
          exact (h1 k he) (List.mem_cons_of_mem _ hmem)
      · rw [List.map_cons]
        refine List.nodup_cons.mpr ⟨?_, h2⟩
        intro hmem
        exact (h1 _ hmem) (List.mem_cons_self _ _)

/-- C8: the coordinate reference consists exactly of projections of combined
rows having both coordinates, one per (WATER, TOWN, COUNTY) key, with
distinct keys, sorted by COUNTY then TOWN then WATER; and `main` writes the
coordinate reference computed from the dataset it writes to
`df_updated.csv`. -/
theorem claim_C8 (df df_2025 df_current : List Row) (df_manual : List CoordRow) :
    (∀ cr ∈ create_coordinate_reference df, cr ∈ df.filterMap toRef?) ∧
    (∀ row ∈ df, ∀ cr, toRef? row = some cr →
      refKey cr ∈ (create_coordinate_reference df).map refKey) ∧
    ((create_coordinate_reference df).map refKey).Nodup ∧
    List.Sorted refLe (create_coordinate_reference df) ∧
    (main_outputs df_2025 df_current df_manual).2 =
      create_coordinate_reference (main_outputs df_2025 df_current df_manual).1 := by
  refine ⟨?_, ?_, ?_, ?_, rfl⟩
  · intro cr hcr
    rw [create_coordinate_reference, List.mem_insertionSort] at hcr
    exact dedupFirstAux_subset [] _ cr hcr
  · intro row hrow cr hcr
    have hmem : cr ∈ df.filterMap toRef? := List.mem_filterMap.mpr ⟨row, hrow, hcr⟩
    rcases dedupFirstAux_covers [] (df.filterMap toRef?) cr hmem with h | h
    · cases h
    · rw [create_coordinate_reference]
      have hp := (List.perm_insertionSort refLe
        (dedupFirstAux [] (df.filterMap toRef?))).map refKey
      exact hp.mem_iff.mpr h
  · rw [create_coordinate_reference]
    have hp := (List.perm_insertionSort refLe
      (dedupFirstAux [] (df.filterMap toRef?))).map refKey
    exact hp.nodup_iff.mpr (dedupFirstAux_keys_nodup [] _).2
  · exact List.sorted_insertionSort refLe _

/-- Witness for C1 at a concrete pike row. -/
theorem claim_C1_witness :
    (⟨"GREAT POND", "BELGRADE", "KENNEBEC", "NORTHERN PIKE", Cell.na, Cell.na, Cell.na,
      Cell.na, none, none⟩ : Row) ∈
      (main_outputs [] [⟨"GREAT POND", "BELGRADE", "KENNEBEC", "NORTHERN PIKE", Cell.na,
        Cell.na, Cell.na, Cell.na, none, none⟩] []).1 :=
  (claim_C1 [] [⟨"GREAT POND", "BELGRADE", "KENNEBEC", "NORTHERN PIKE", Cell.na, Cell.na,
    Cell.na, Cell.na, none, none⟩] []
    ⟨"GREAT POND", "BELGRADE", "KENNEBEC", "NORTHERN PIKE", Cell.na, Cell.na, Cell.na,
      Cell.na, none, none⟩).1 (by decide) (by decide)

/-- Witness for C2 at a concrete row whose key is in the manual lookup. -/
theorem claim_C2_witness :
    (merge_coordinates [⟨" sebago lake ", "casco", "CUMBERLAND", "BROOK TROUT",
        Cell.str "100", Cell.na, Cell.na, Cell.na, none, none⟩] []
      [(("SEBAGO LAKE", "CASCO"), (3, 4))]).length =
      ([⟨" sebago lake ", "casco", "CUMBERLAND", "BROOK TROUT", Cell.str "100", Cell.na,
        Cell.na, Cell.na, none, none⟩] : List Row).length ∧
    ((⟨" sebago lake ", "casco", "CUMBERLAND", "BROOK TROUT", Cell.str "100", Cell.na,
        Cell.na, Cell.na, some 3, some 4⟩ : Row).X_coord = some 3 ∧
      (⟨" sebago lake ", "casco", "CUMBERLAND", "BROOK TROUT", Cell.str "100", Cell.na,
        Cell.na, Cell.na, some 3, some 4⟩ : Row).Y_coord = some 4) :=
  ⟨(claim_C2 [⟨" sebago lake ", "casco", "CUMBERLAND", "BROOK TROUT", Cell.str "100",
      Cell.na, Cell.na, Cell.na, none, none⟩] [] [(("SEBAGO LAKE", "CASCO"), (3, 4))]
      0 (by decide)).1,
   ((claim_C2 [⟨" sebago lake ", "casco", "CUMBERLAND", "BROOK TROUT", Cell.str "100",
      Cell.na, Cell.na, Cell.na, none, none⟩] [] [(("SEBAGO LAKE", "CASCO"), (3, 4))]
      0 (by decide)).2
      ⟨" sebago lake ", "casco", "CUMBERLAND", "BROOK TROUT", Cell.str "100", Cell.na,
        Cell.na, Cell.na, some 3, some 4⟩ rfl).1 3 4 rfl⟩

/-- Witness for C3 at a row with an unparseable QTY and a non-numeric
minimum-quantity text. -/
theorem claim_C3_witness :
    (computeQty true ⟨"W", "T", "C", "BROOK TROUT", Cell.str "abc", Cell.na, Cell.na,
      Cell.na, none, none⟩).qty_value = QVal.num 0 ∧
    quantityMatchOf true ⟨"W", "T", "C", "BROOK TROUT", Cell.str "abc", Cell.na, Cell.na,
      Cell.na, none, none⟩ 0 = .ok (decide (((0 : Int) : ℚ) ≤ 0)) ∧
    parse_min_qty "five" = 0 :=
  ⟨(claim_C3 true ⟨"W", "T", "C", "BROOK TROUT", Cell.str "abc", Cell.na, Cell.na,
      Cell.na, none, none⟩ 0 "five" (by decide) (by decide)).1,
   (claim_C3 true ⟨"W", "T", "C", "BROOK TROUT", Cell.str "abc", Cell.na, Cell.na,
      Cell.na, none, none⟩ 0 "five" (by decide) (by decide)).2.1,
   (claim_C3 true ⟨"W", "T", "C", "BROOK TROUT", Cell.str "abc", Cell.na, Cell.na,
      Cell.na, none, none⟩ 0 "five" (by decide) (by decide)).2.2 (by decide)⟩

/-- Witness for C4 at a row whose DATE text parses as no date. -/
theorem claim_C4_witness :
    season_match true false (Cell.str "Spring 2024") = true ∧
    processRow true ["BROOK TROUT"] true false 0
      ⟨"W", "T", "C", "BROOK TROUT", Cell.str "5", Cell.na, Cell.str "Spring 2024",
        Cell.na, none, none⟩ =
      .ok (some ⟨"BROOK TROUT", some 5, "", "N/A", "Spring 2024"⟩) :=
  ⟨(claim_C4 true ["BROOK TROUT"] true false 0
      ⟨"W", "T", "C", "BROOK TROUT", Cell.str "5", Cell.na, Cell.str "Spring 2024",
        Cell.na, none, none⟩ (by decide) (by decide)).1,
   (claim_C4 true ["BROOK TROUT"] true false 0
      ⟨"W", "T", "C", "BROOK TROUT", Cell.str "5", Cell.na, Cell.str "Spring 2024",
        Cell.na, none, none⟩ (by decide) (by decide)).2 (by decide) rfl⟩

/-- Witness for C5 at a concrete dataframe and search term. -/
theorem claim_C5_witness :
    strContains (pyLower (⟨"SEBAGO LAKE", "CASCO", "CUMBERLAND",
        [⟨"SEBAGO LAKE", "CASCO", "CUMBERLAND", "BROOK TROUT", Cell.str "100", Cell.na,
          Cell.na, Cell.na, some 1, some 2⟩],
        [⟨"BROOK TROUT", some 100, "", "N/A", "N/A (Not Stocked)"⟩]⟩ :
          GroupResult).water_name) (pyLower "bago") = true ∨
    strContains (pyLower (⟨"SEBAGO LAKE", "CASCO", "CUMBERLAND",
        [⟨"SEBAGO LAKE", "CASCO", "CUMBERLAND", "BROOK TROUT", Cell.str "100", Cell.na,
          Cell.na, Cell.na, some 1, some 2⟩],
        [⟨"BROOK TROUT", some 100, "", "N/A", "N/A (Not Stocked)"⟩]⟩ :
          GroupResult).town_name) (pyLower "bago") = true ∨
    strContains (pyLower (⟨"SEBAGO LAKE", "CASCO", "CUMBERLAND",
        [⟨"SEBAGO LAKE", "CASCO", "CUMBERLAND", "BROOK TROUT", Cell.str "100", Cell.na,
          Cell.na, Cell.na, some 1, some 2⟩],
        [⟨"BROOK TROUT", some 100, "", "N/A", "N/A (Not Stocked)"⟩]⟩ :
          GroupResult).county_name) (pyLower "bago") = true :=
  claim_C5 [⟨"SEBAGO LAKE", "CASCO", "CUMBERLAND", "BROOK TROUT", Cell.str "100",
      Cell.na, Cell.na, Cell.na, some 1, some 2⟩] true ["BROOK TROUT"] false false
    "bago" 0
    [⟨"SEBAGO LAKE", "CASCO", "CUMBERLAND",
      [⟨"SEBAGO LAKE", "CASCO", "CUMBERLAND", "BROOK TROUT", Cell.str "100", Cell.na,
        Cell.na, Cell.na, some 1, some 2⟩],
      [⟨"BROOK TROUT", some 100, "", "N/A", "N/A (Not Stocked)"⟩]⟩]
    ⟨"SEBAGO LAKE", "CASCO", "CUMBERLAND",
      [⟨"SEBAGO LAKE", "CASCO", "CUMBERLAND", "BROOK TROUT", Cell.str "100", Cell.na,
        Cell.na, Cell.na, some 1, some 2⟩],
      [⟨"BROOK TROUT", some 100, "", "N/A", "N/A (Not Stocked)"⟩]⟩
    rfl (by decide)

/-- Witness for C6 at a concrete spring date. -/
theorem claim_C6_witness :
    season_match true false (Cell.str "5/1/2024") =
      ((true && decide (5 ≤ 6)) || (false && decide (7 ≤ 5))) :=
  (claim_C6 true false (Cell.str "5/1/2024")).1 5 rfl (by decide) rfl

/-- Witness for C7 at a concrete appended row. -/
theorem claim_C7_witness :
    (["BROOK TROUT"].contains (⟨"W", "T", "C", "BROOK TROUT", Cell.str "100", Cell.na,
      Cell.na, Cell.na, none, none⟩ : Row).SPECIES = true) ∧
    ((computeQty true ⟨"W", "T", "C", "BROOK TROUT", Cell.str "100", Cell.na, Cell.na,
        Cell.na, none, none⟩).is_arctic_char = true ∨
      qtyGeB (computeQty true ⟨"W", "T", "C", "BROOK TROUT", Cell.str "100", Cell.na,
        Cell.na, Cell.na, none, none⟩).qty_value 5 = true) :=
  (claim_C7 true ["BROOK TROUT"] false false 5
    ⟨"W", "T", "C", "BROOK TROUT", Cell.str "100", Cell.na, Cell.na, Cell.na,
      none, none⟩).1
    ⟨"BROOK TROUT", some 100, "", "N/A", "N/A (Not Stocked)"⟩ rfl

/-- Witness for C8 at a dataframe with a duplicate location key and full
coordinates. -/
theorem claim_C8_witness :
    (⟨"B LAKE", "TOWNB", "YORK", 1, 2⟩ : CoordRefRow) ∈
      ([⟨"B LAKE", "TOWNB", "YORK", "BROOK TROUT", Cell.na, Cell.na, Cell.na, Cell.na,
          some 1, some 2⟩,
        ⟨"B LAKE", "TOWNB", "YORK", "BROWN TROUT", Cell.na, Cell.na, Cell.na, Cell.na,
          some 7, some 8⟩] : List Row).filterMap toRef? ∧
    refKey (⟨"B LAKE", "TOWNB", "YORK", 1, 2⟩ : CoordRefRow) ∈
      (create_coordinate_reference
        [⟨"B LAKE", "TOWNB", "YORK", "BROOK TROUT", Cell.na, Cell.na, Cell.na, Cell.na,
          some 1, some 2⟩,
         ⟨"B LAKE", "TOWNB", "YORK", "BROWN TROUT", Cell.na, Cell.na, Cell.na, Cell.na,
          some 7, some 8⟩]).map refKey ∧
    ((create_coordinate_reference
        [⟨"B LAKE", "TOWNB", "YORK", "BROOK TROUT", Cell.na, Cell.na, Cell.na, Cell.na,
          some 1, some 2⟩,
         ⟨"B LAKE", "TOWNB", "YORK", "BROWN TROUT", Cell.na, Cell.na, Cell.na, Cell.na,
          some 7, some 8⟩]).map refKey).Nodup :=
  ⟨(claim_C8 [⟨"B LAKE", "TOWNB", "YORK", "BROOK TROUT", Cell.na, Cell.na, Cell.na,
      Cell.na, some 1, some 2⟩,
     ⟨"B LAKE", "TOWNB", "YORK", "BROWN TROUT", Cell.na, Cell.na, Cell.na, Cell.na,
      some 7, some 8⟩] [] [] []).1 ⟨"B LAKE", "TOWNB", "YORK", 1, 2⟩ (by decide),
   (claim_C8 [⟨"B LAKE", "TOWNB", "YORK", "BROOK TROUT", Cell.na, Cell.na, Cell.na,
      Cell.na, some 1, some 2⟩,
     ⟨"B LAKE", "TOWNB", "YORK", "BROWN TROUT", Cell.na, Cell.na, Cell.na, Cell.na,
      some 7, some 8⟩] [] [] []).2.1
    ⟨"B LAKE", "TOWNB", "YORK", "BROOK TROUT", Cell.na, Cell.na, Cell.na, Cell.na,
      some 1, some 2⟩ (by decide) ⟨"B LAKE", "TOWNB", "YORK", 1, 2⟩ rfl,
   (claim_C8 [⟨"B LAKE", "TOWNB", "YORK", "BROOK TROUT", Cell.na, Cell.na, Cell.na,
      Cell.na, some 1, some 2⟩,
     ⟨"B LAKE", "TOWNB", "YORK", "BROWN TROUT", Cell.na, Cell.na, Cell.na, Cell.na,
      some 7, some 8⟩] [] [] []).2.2.1⟩

/-- Witness for C9 at a concrete dataframe whose one group passes. -/
theorem claim_C9_witness :
    ([⟨"BROOK TROUT", some 200, "", "N/A", "N/A (Not Stocked)"⟩] :
      List FilteredRow) ≠ [] :=
  (claim_C9 [⟨"MOOSEHEAD LAKE", "GREENVILLE", "PISCATAQUIS", "BROOK TROUT",
      Cell.str "200", Cell.na, Cell.na, Cell.na, some 1, some 2⟩] true ["BROOK TROUT"]
    false false "" 0).2
    [[⟨"BROOK TROUT", some 200, "", "N/A", "N/A (Not Stocked)"⟩]] rfl
    [⟨"BROOK TROUT", some 200, "", "N/A", "N/A (Not Stocked)"⟩] (by decide)

/-- Witness for C10 at a concrete Arctic Char row with abundance data. -/
theorem claim_C10_witness :
    (computeQty true ⟨"FLOODS POND", "OTIS", "HANCOCK", "ARCTIC CHAR", Cell.na, Cell.na,
      Cell.na, Cell.str " RARE ", some 1, some 2⟩).is_arctic_char = true ∧
    (computeQty true ⟨"FLOODS POND", "OTIS", "HANCOCK", "ARCTIC CHAR", Cell.na, Cell.na,
      Cell.na, Cell.str " RARE ", some 1, some 2⟩).qty_value = QVal.num 0 ∧
    (computeQty true ⟨"FLOODS POND", "OTIS", "HANCOCK", "ARCTIC CHAR", Cell.na, Cell.na,
      Cell.na, Cell.str " RARE ", some 1, some 2⟩).qty_display = none ∧
    (computeQty true ⟨"FLOODS POND", "OTIS", "HANCOCK", "ARCTIC CHAR", Cell.na, Cell.na,
      Cell.na, Cell.str " RARE ", some 1, some 2⟩).abundance_value =
      pyStrip (strOfCell (⟨"FLOODS POND", "OTIS", "HANCOCK", "ARCTIC CHAR", Cell.na,
        Cell.na, Cell.na, Cell.str " RARE ", some 1, some 2⟩ : Row).ABUNDANCE) ∧
    quantityMatchOf true ⟨"FLOODS POND", "OTIS", "HANCOCK", "ARCTIC CHAR", Cell.na,
      Cell.na, Cell.na, Cell.str " RARE ", some 1, some 2⟩ 999 = .ok true :=
  claim_C10 ⟨"FLOODS POND", "OTIS", "HANCOCK", "ARCTIC CHAR", Cell.na, Cell.na, Cell.na,
    Cell.str " RARE ", some 1, some 2⟩ 999 rfl (by decide) (by decide) (by decide)
